import Mathlib

/-!
Verification development for the Qwen3-TTS local HTTP server
(`src/tts-server/server.py`).

The file embeds the server's core — the cache key deriver
(`TTSEngine._get_cache_key`), the two-tier audio cache and synthesis
orchestrator (`TTSEngine.synthesize`), lazy initialization
(`TTSEngine.initialize`), the voice-profile loader
(`TTSEngine._load_voice_prompt`), the WAV encoder (`TTSEngine._array_to_wav`)
and the `/synthesize` and `/reference` routes — as executable Lean
definitions, and proves the behavioural properties claimed of them.

Modelling conventions:
* Raw bytes are `List Nat` (each entry < 256 where it matters).
* Python floats (the `rate` parameter) are modelled as exact rationals `ℚ`;
  the clamping `max(0.5, min(2.0, rate))` and all comparisons performed on
  rates are exact, so this is faithful for every representable rate.
* External collaborators (the `qwen_tts` capability, `torch`, the
  filesystem-write outcome) are inputs gathered in an `Env` record: each
  call site of an external operation reads its outcome from `Env`.
* Exceptions are `Except String`; a Python `try/except` that logs and
  swallows becomes a `match` that discards the `.error` branch.
* `hashlib.md5(...).hexdigest()` is embedded as a full executable MD5
  implementation over byte lists (RFC 1321), so that the fixed-length and
  delimiter properties of the cache key are proved against the real hash.
-/

/-- Raw bytes, as used for WAV payloads and cache contents. -/
abbrev Bytes := List Nat

/-- UTF-8 bytes of a string, as Python's `str.encode()` produces. -/
def strBytes (s : String) : Bytes := s.toUTF8.toList.map (fun b => b.toNat)

/-- Little-endian 2-byte encoding of a (pre-reduced) 16-bit value. -/
def le16 (n : Nat) : Bytes := [n % 256, n / 256 % 256]

/-- Little-endian 4-byte encoding of a (pre-reduced) 32-bit value. -/
def le32 (n : Nat) : Bytes := [n % 256, n / 256 % 256, n / 65536 % 256, n / 16777216 % 256]

/-- Little-endian 8-byte encoding of a 64-bit value. -/
def le64 (n : Nat) : Bytes := le32 (n % 4294967296) ++ le32 (n / 4294967296 % 4294967296)

/-- MD5 per-round additive constants (RFC 1321, `floor(2^32 * abs(sin(i+1)))`). -/
def md5K : List Nat :=
  [0xd76aa478, 0xe8c7b756, 0x242070db, 0xc1bdceee,
   0xf57c0faf, 0x4787c62a, 0xa8304613, 0xfd469501,
   0x698098d8, 0x8b44f7af, 0xffff5bb1, 0x895cd7be,
   0x6b901122, 0xfd987193, 0xa679438e, 0x49b40821,
   0xf61e2562, 0xc040b340, 0x265e5a51, 0xe9b6c7aa,
   0xd62f105d, 0x02441453, 0xd8a1e681, 0xe7d3fbc8,
   0x21e1cde6, 0xc33707d6, 0xf4d50d87, 0x455a14ed,
   0xa9e3e905, 0xfcefa3f8, 0x676f02d9, 0x8d2a4c8a,
   0xfffa3942, 0x8771f681, 0x6d9d6122, 0xfde5380c,
   0xa4beea44, 0x4bdecfa9, 0xf6bb4b60, 0xbebfbc70,
   0x289b7ec6, 0xeaa127fa, 0xd4ef3085, 0x04881d05,
   0xd9d4d039, 0xe6db99e5, 0x1fa27cf8, 0xc4ac5665,
   0xf4292244, 0x432aff97, 0xab9423a7, 0xfc93a039,
   0x655b59c3, 0x8f0ccc92, 0xffeff47d, 0x85845dd1,
   0x6fa87e4f, 0xfe2ce6e0, 0xa3014314, 0x4e0811a1,
   0xf7537e82, 0xbd3af235, 0x2ad7d2bb, 0xeb86d391]

/-- MD5 per-round left-rotation amounts (RFC 1321). -/
def md5S : List Nat :=
  [7, 12, 17, 22, 7, 12, 17, 22, 7, 12, 17, 22, 7, 12, 17, 22,
   5, 9, 14, 20, 5, 9, 14, 20, 5, 9, 14, 20, 5, 9, 14, 20,
   4, 11, 16, 23, 4, 11, 16, 23, 4, 11, 16, 23, 4, 11, 16, 23,
   6, 10, 15, 21, 6, 10, 15, 21, 6, 10, 15, 21, 6, 10, 15, 21]

/-- Left-rotation of a 32-bit word. -/
def rotl32 (x n : Nat) : Nat := ((x <<< n) ||| (x >>> (32 - n))) % 4294967296

/-- MD5 round function and message-word index for round `i` (RFC 1321). -/
def md5F (i b c d : Nat) : Nat × Nat :=
  if i < 16 then ((b &&& c) ||| ((0xffffffff ^^^ b) &&& d), i)
  else if i < 32 then ((d &&& b) ||| ((0xffffffff ^^^ d) &&& c), (5 * i + 1) % 16)
  else if i < 48 then (b ^^^ c ^^^ d, (3 * i + 5) % 16)
  else (c ^^^ (b ||| (0xffffffff ^^^ d)), (7 * i) % 16)

/-- Group a byte list into little-endian 32-bit words. -/
def wordsLE : List Nat → List Nat
  | b0 :: b1 :: b2 :: b3 :: rest =>
      (b0 + 256 * b1 + 65536 * b2 + 16777216 * b3) :: wordsLE rest
  | _ => []

/-- Split a byte list into 64-byte chunks. -/
def chunks64 : List Nat → List (List Nat)
  | [] => []
  | b :: rest => (b :: rest).take 64 :: chunks64 (rest.drop 63)
termination_by l => l.length
decreasing_by
  simp only [List.length_drop, List.length_cons]
  omega

/-- MD5 padding: append `0x80`, zero-pad to 56 mod 64, append the 64-bit
bit length little-endian (RFC 1321). -/
def md5pad (msg : Bytes) : Bytes :=
  let len := msg.length
  let padLen := (119 - len % 64) % 64
  msg ++ [0x80] ++ List.replicate padLen 0 ++ le64 ((len * 8) % 18446744073709551616)

/-- One MD5 round: rotate the state quadruple (RFC 1321). -/
def md5round (M : List Nat) (s : Nat × Nat × Nat × Nat) (i : Nat) : Nat × Nat × Nat × Nat :=
  let (a, b, c, d) := s
  let (f, g) := md5F i b c d
  let x := (f + a + md5K.getD i 0 + M.getD g 0) % 4294967296
  (d, (b + rotl32 x (md5S.getD i 0)) % 4294967296, b, c)

/-- Process one 64-byte chunk, folding 64 rounds and adding into the running
state (RFC 1321). -/
def md5chunk (h : Nat × Nat × Nat × Nat) (chunk : List Nat) : Nat × Nat × Nat × Nat :=
  let M := wordsLE chunk
  let r := (List.range 64).foldl (md5round M) h
  ((h.1 + r.1) % 4294967296, (h.2.1 + r.2.1) % 4294967296,
   (h.2.2.1 + r.2.2.1) % 4294967296, (h.2.2.2 + r.2.2.2) % 4294967296)

/-- MD5 initial state (RFC 1321). -/
def md5init : Nat × Nat × Nat × Nat := (0x67452301, 0xefcdab89, 0x98badcfe, 0x10325476)

/-- MD5 digest: 16 bytes, the four state words little-endian. -/
def md5digest (msg : Bytes) : Bytes :=
  let r := (chunks64 (md5pad msg)).foldl md5chunk md5init
  le32 r.1 ++ le32 r.2.1 ++ le32 r.2.2.1 ++ le32 r.2.2.2

/-- Lower-case hex digit for a value below 16. -/
def hexDigit (n : Nat) : Char :=
  if n < 10 then Char.ofNat (48 + n) else Char.ofNat (87 + n)

/-- Two lower-case hex digits for one byte. -/
def hexByte (b : Nat) : String := String.mk [hexDigit (b / 16 % 16), hexDigit (b % 16)]

/-- Lower-case hex rendering of a byte list. -/
def bytesToHex : Bytes → String
  | [] => ""
  | b :: rest => hexByte b ++ bytesToHex rest

/-- Embeds `hashlib.md5(content.encode()).hexdigest()`: the 32-character
lower-case hex digest of the MD5 of the given bytes. -/
def md5hex (msg : Bytes) : String := bytesToHex (md5digest msg)

/-- Fractional decimal digits of `r / d` (with `r < d`), up to `fuel` digits,
stopping when the remainder is zero. -/
def fracDigitsAux : Nat → Nat → Nat → String
  | 0, _, _ => ""
  | fuel + 1, r, d =>
      if r = 0 then ""
      else toString (r * 10 / d) ++ fracDigitsAux fuel (r * 10 % d) d

/-- Decimal rendering of a rate, as Python's f-string formats a float
(always carrying a fractional part, `1.0`, `0.5`, ...). Rates are modelled
as exact rationals, so the rendering is an exact terminating decimal
(truncated to 17 fractional digits, the float repr digit bound). -/
def pyFloatRepr (q : ℚ) : String :=
  let sign := if q < 0 then "-" else ""
  let n := q.num.natAbs
  let d := q.den
  sign ++ toString (n / d) ++ "." ++ (if n % d = 0 then "0" else fracDigitsAux 17 (n % d) d)

/-- Embeds the `ServerConfig` dataclass, plus the mutable
`config.reference_text` field that `/reference` updates. -/
structure Config where
  host : String
  port : Nat
  modelName : String
  cacheDir : String
  referenceAudio : String
  referenceText : String
  device : String
  deriving DecidableEq

/-- Opaque handle for the loaded `QwenTTS` model object. -/
abbrev Model := Nat

/-- Opaque handle for a built voice-clone prompt object. -/
abbrev VoiceProfile := Nat

/-- Outcomes of the external collaborators consulted during one request:
the `qwen_tts` capability (`QwenTTS.from_pretrained`,
`create_voice_clone_prompt`, `generate`, `generate_voice_clone`), `torch`
device probing, directory creation, and the cache-file write. A capability
raising an exception is an `.error`. -/
structure Env where
  cudaAvailable : Bool
  loadModel : String → Except String Model
  mkdirOk : Bool
  buildPrompt : Model → String → String → Except String VoiceProfile
  genClone : Model → VoiceProfile → String → ℚ → Except String (List ℚ × Nat)
  gen : Model → String → ℚ → Except String (List ℚ × Nat)
  writeOk : Bool

/-- Embeds the mutable fields of `TTSEngine`: `self.model`,
`self.voice_prompt`, `self.audio_cache` (a dict, embedded as an
assoc list with most-recent bindings in front) and `self._initialized`. -/
structure Engine where
  model : Option Model
  voicePrompt : Option VoiceProfile
  audioCache : List (String × Bytes)
  inited : Bool
  deriving DecidableEq

/-- Engine state as built by `TTSEngine.__init__`. -/
def Engine.start : Engine :=
  { model := none, voicePrompt := none, audioCache := [], inited := false }

/-- The filesystem as the server sees it: the cache directory (one entry per
cache key, holding the bytes of `{key}.wav`) and whether the reference audio
file `config.reference_audio` exists. -/
structure FS where
  cacheFiles : List (String × Bytes)
  refExists : Bool
  deriving DecidableEq

/-- Truncation toward zero of a rational, as numpy's `astype` casts. -/
def ratTrunc (q : ℚ) : Int := q.num.tdiv q.den

/-- Normalization of one sample to a wrapped 16-bit value:
`(x * 32767).astype(np.int16)` truncates toward zero and wraps mod 2^16. -/
def toInt16 (q : ℚ) : Nat := ((ratTrunc (q * 32767)) % 65536).toNat

/-- Canonical 44-byte PCM WAV header as the `wave` module writes it for
mono 16-bit audio at the given sample rate. -/
def wavHeader (numSamples sampleRate : Nat) : Bytes :=
  strBytes "RIFF" ++ le32 ((36 + 2 * numSamples) % 4294967296) ++ strBytes "WAVE" ++
  strBytes "fmt " ++ le32 16 ++ le16 1 ++ le16 1 ++ le32 (sampleRate % 4294967296) ++
  le32 (sampleRate * 2 % 4294967296) ++ le16 2 ++ le16 16 ++
  strBytes "data" ++ le32 (2 * numSamples % 4294967296)

/-- Embeds `TTSEngine._array_to_wav`: normalize samples to int16 and frame
them in a standard mono 16-bit WAV container. -/
def arrayToWav (arr : List ℚ) (sampleRate : Nat) : Bytes :=
  wavHeader arr.length sampleRate ++ arr.flatMap (fun q => le16 (toInt16 q))

/-- Embeds `TTSEngine._get_cache_key`: the MD5 hex digest of
`f"{text}|{rate}|{config.model_name}"`. -/
def getCacheKey (cfg : Config) (text : String) (rate : ℚ) : String :=
  md5hex (strBytes (text ++ "|" ++ pyFloatRepr rate ++ "|" ++ cfg.modelName))

/-- Embeds the device-selection lines of `TTSEngine.initialize`:
`"auto"` resolves to `"cuda"` when available, else `"cpu"`. -/
def resolveDevice (cfg : Config) (env : Env) : String :=
  if cfg.device = "auto" then (if env.cudaAvailable then "cuda" else "cpu") else cfg.device

/-- Embeds `TTSEngine._load_voice_prompt`. If the reference file is missing
the function logs and returns early, leaving the engine untouched.
Otherwise `self.voice_prompt = self.model.create_voice_clone_prompt(...)`
runs inside `try`: a `None` model raises `AttributeError`, and any failure
is caught, logged, and recorded as `self.voice_prompt = None`. -/
def loadVoicePrompt (cfg : Config) (env : Env) (st : Engine) (fs : FS) : Engine :=
  if fs.refExists then
    match st.model with
    | none => { st with voicePrompt := none }
    | some m =>
        match env.buildPrompt m cfg.referenceAudio cfg.referenceText with
        | .ok p => { st with voicePrompt := some p }
        | .error _ => { st with voicePrompt := none }
  else st

/-- Embeds `TTSEngine.initialize`: no-op when already initialized; otherwise
resolve the device, load the model (import/load failures re-raise and leave
the flag unset), create the cache directory, load the voice prompt, and only
then set `self._initialized = True`. The returned engine carries whatever
mutations happened before a failure (the model field survives a later
failure, the flag never does). -/
def initEngine (cfg : Config) (env : Env) (st : Engine) (fs : FS) :
    Except String Unit × Engine :=
  if st.inited then (.ok (), st)
  else
    match env.loadModel (resolveDevice cfg env) with
    | .error e => (.error e, st)
    | .ok m =>
        if env.mkdirOk then
          let st1 := loadVoicePrompt cfg env { st with model := some m } fs
          (.ok (), { st1 with inited := true })
        else (.error "mkdir failed", { st with model := some m })

/-- Embeds the capability invocation inside `TTSEngine.synthesize`:
`generate_voice_clone` when `self.voice_prompt is not None`, else
`generate`; a `None` model raises `AttributeError` (an `.error` here), which
the surrounding `try` re-raises. -/
def genCall (env : Env) (st : Engine) (text : String) (rate : ℚ) :
    Except String (List ℚ × Nat) :=
  match st.voicePrompt, st.model with
  | some vp, some m => env.genClone m vp text rate
  | some _, none => .error "model unavailable"
  | none, some m => env.gen m text rate
  | none, none => .error "model unavailable"

/-- Embeds the cache-miss tail of `TTSEngine.synthesize` (the `Generate
speech` block): invoke the capability, encode to WAV, insert into the memory
cache, then write the cache file; an exception re-raises after the memory
insertion already happened. -/
def generateAndCache (env : Env) (st : Engine) (fs : FS)
    (text : String) (rate : ℚ) (key : String) : Except String Bytes × Engine × FS :=
  match genCall env st text rate with
  | .error e => (.error e, st, fs)
  | .ok (arr, sr) =>
      let b := arrayToWav arr sr
      let st2 := { st with audioCache := (key, b) :: st.audioCache }
      if env.writeOk then
        (.ok b, st2, { fs with cacheFiles := (key, b) :: fs.cacheFiles })
      else (.error "file write failed", st2, fs)

/-- Embeds `TTSEngine.synthesize`: lazy initialization, memory-cache lookup,
file-cache lookup (populating the memory tier on a file hit), then
generation. Errors propagate together with whatever state mutations already
happened. -/
def synthesize (cfg : Config) (env : Env) (st : Engine) (fs : FS)
    (text : String) (rate : ℚ) : Except String Bytes × Engine × FS :=
  match (if st.inited then (Except.ok (), st) else initEngine cfg env st fs) with
  | (.error e, st1) => (.error e, st1, fs)
  | (.ok _, st1) =>
      let key := getCacheKey cfg text rate
      match st1.audioCache.lookup key with
      | some b => (.ok b, st1, fs)
      | none =>
          match fs.cacheFiles.lookup key with
          | some b => (.ok b, { st1 with audioCache := (key, b) :: st1.audioCache }, fs)
          | none => generateAndCache env st1 fs text rate key

/-- HTTP outcome of the `/synthesize` route: either an audio `Response` with
a mimetype, or a `jsonify({"error": msg}), status` pair. -/
inductive RouteResult where
  | audio (b : Bytes) (mimetype : String)
  | jsonErr (status : Nat) (msg : String)
  deriving DecidableEq

/-- HTTP status code of a route outcome (a plain audio `Response` is 200). -/
def RouteResult.statusCode : RouteResult → Nat
  | .audio _ _ => 200
  | .jsonErr s _ => s

/-- Parsed JSON body of a `/synthesize` request: `none` when the body is
absent, not JSON, or an empty object (all falsy, all rejected identically by
`if not data or "text" not in data`); otherwise the optional `text` and
`rate` fields. -/
structure SynthReq where
  json : Option (Option String × Option ℚ)

/-- Embeds the clamping line `rate = max(0.5, min(2.0, rate))`. -/
def clampRate (r : ℚ) : ℚ := max 0.5 (min 2.0 r)

/-- Embeds the `/synthesize` route: 400 with an error body when the text
field is missing, otherwise clamp the rate, synthesize, and map the outcome
to an audio response or a 500 error body. State mutated by a failing
synthesis call persists (the engine is a process-wide singleton). -/
def synthesizeRoute (cfg : Config) (env : Env) (st : Engine) (fs : FS)
    (req : SynthReq) : RouteResult × Engine × FS :=
  match req.json with
  | none => (.jsonErr 400 "Missing text field", st, fs)
  | some (tf, rf) =>
      match tf with
      | none => (.jsonErr 400 "Missing text field", st, fs)
      | some text =>
          let rate := clampRate (rf.getD 1.0)
          match synthesize cfg env st fs text rate with
          | (.ok b, st1, fs1) => (.audio b "audio/wav", st1, fs1)
          | (.error e, st1, fs1) => (.jsonErr 500 e, st1, fs1)

/-- Response body of the `/reference` route: the status code and, on
success, the reported `voice_clone_active` flag. -/
structure RefResponse where
  status : Nat
  voiceCloneActive : Option Bool
  deriving DecidableEq

/-- Embeds the `/reference` route: 400 when no audio file is attached;
otherwise save the reference clip (the file now exists), update
`config.reference_text` when a transcript was sent, reload the voice prompt,
and report `voice_clone_active`. -/
def uploadReference (cfg : Config) (env : Env) (st : Engine) (fs : FS)
    (hasAudio : Bool) (textForm : Option String) :
    RefResponse × Config × Engine × FS :=
  if hasAudio then
    let fs1 : FS := { fs with refExists := true }
    let cfg1 : Config := { cfg with referenceText := textForm.getD cfg.referenceText }
    let st1 := loadVoicePrompt cfg1 env st fs1
    (⟨200, some st1.voicePrompt.isSome⟩, cfg1, st1, fs1)
  else (⟨400, none⟩, cfg, st, fs)

/-! ## Concrete fixtures used by witness and counterexample theorems -/

/-- The server's startup configuration (`ServerConfig` defaults). -/
def cfg0 : Config :=
  { host := "0.0.0.0", port := 8765, modelName := "Qwen/Qwen3-TTS-12Hz-0.6B-Base",
    cacheDir := "./cache", referenceAudio := "./reference/gm-voice.wav",
    referenceText := "The shadows grow long as ancient evil stirs in the darkness.",
    device := "auto" }

/-- An environment where every external operation succeeds. -/
def envA : Env :=
  { cudaAvailable := false, loadModel := fun _ => .ok 0, mkdirOk := true,
    buildPrompt := fun _ _ _ => .ok 7,
    genClone := fun _ _ _ _ => .ok ([1/4], 8000),
    gen := fun _ _ _ => .ok ([], 8000), writeOk := true }

/-- Like `envA` but the synthesis capability returns different samples:
used to show the second call never consults it. -/
def envB : Env := { envA with gen := fun _ _ _ => .ok ([1/2, 1/3], 16000) }

/-- Like `envA` but the model load raises. -/
def envFail : Env := { envA with loadModel := fun _ => .error "no qwen_tts" }

/-- Like `envA` but the cache-file write raises. -/
def envW : Env := { envA with writeOk := false }

/-- Like `envA` but building a voice prompt raises. -/
def envP : Env := { envA with buildPrompt := fun _ _ _ => .error "bad clip" }

/-- Empty filesystem: no cache files, no reference clip. -/
def fs0 : FS := { cacheFiles := [], refExists := false }

/-- Cache key of the request exercised by the witnesses. -/
def key0 : String := getCacheKey cfg0 "hi" 1

/-- WAV bytes produced for that request under `envA`. -/
def b1 : Bytes := arrayToWav [] 8000

/-- Engine state after one successful synthesis of `("hi", 1)` from scratch. -/
def st1c : Engine :=
  { model := some 0, voicePrompt := none, audioCache := [(key0, b1)], inited := true }

/-- Filesystem after that synthesis: the cache file was written. -/
def fs1c : FS := { cacheFiles := [(key0, b1)], refExists := false }

/-- Initialized engine with empty caches. -/
def stI : Engine :=
  { model := some 0, voicePrompt := none, audioCache := [], inited := true }

/-! ## C4 — cache key determinism, fixed length, explicit delimiter -/

/-- Length of the two-hex-digit rendering of one byte. -/
theorem hexByte_length (b : Nat) : (hexByte b).length = 2 := rfl

/-- Length of the hex rendering of a byte list. -/
theorem bytesToHex_length (l : Bytes) : (bytesToHex l).length = 2 * l.length := by
  induction l with
  | nil => rfl
  | cons b rest ih =>
      simp [bytesToHex, String.length_append, hexByte_length, ih, List.length_cons]
      ring

/-- Length of a little-endian 32-bit encoding. -/
theorem le32_length (n : Nat) : (le32 n).length = 4 := rfl

/-- The MD5 digest is always 16 bytes. -/
theorem md5digest_length (msg : Bytes) : (md5digest msg).length = 16 := by
  simp [md5digest, le32_length, List.length_append]

/-- The MD5 hex digest is always 32 characters. -/
theorem md5hex_length (msg : Bytes) : (md5hex msg).length = 32 := by
  simp [md5hex, bytesToHex_length, md5digest_length]

/-- C4. Cache key determinism: `_get_cache_key` is a pure function, so two
calls with identical `(text, rate)` under a fixed model identifier yield
identical keys (and, being state-independent, the same key across process
restarts); the key is a fixed-length (32-character) string; and the three
fields are combined into `f"{text}|{rate}|{config.model_name}"` with an
explicit `|` delimiter before hashing, not naively concatenated. -/
theorem cache_key_deriver_spec (cfg : Config) (text : String) (rate : ℚ) :
    getCacheKey cfg text rate = getCacheKey cfg text rate ∧
    (getCacheKey cfg text rate).length = 32 ∧
    getCacheKey cfg text rate =
      md5hex (strBytes (text ++ "|" ++ pyFloatRepr rate ++ "|" ++ cfg.modelName)) := by
  refine ⟨rfl, ?_, rfl⟩
  exact md5hex_length _

/-! ## C9 — rate clamping -/

/-- Lower bound of the clamped rate. -/
theorem clampRate_ge (r : ℚ) : 0.5 ≤ clampRate r := le_max_left _ _

/-- Upper bound of the clamped rate. -/
theorem clampRate_le (r : ℚ) : clampRate r ≤ 2.0 := by
  refine max_le (by norm_num) (min_le_left _ _)

/-- Clamping is idempotent. -/
theorem clampRate_idem (r : ℚ) : clampRate (clampRate r) = clampRate r := by
  have h1 := clampRate_ge r
  have h2 := clampRate_le r
  conv_lhs => rw [clampRate]
  rw [min_eq_right h2, max_eq_right h1]

/-- C9. Rate clamping: the rate actually used by the `/synthesize` route for
key derivation and synthesis is the requested rate clamped into
`[0.5, 2.0]` (a request carrying an already-clamped rate behaves
identically), a request with rate `10.0` behaves identically to one with
rate `2.0` and one with `0.1` identically to `0.5`, the clamped rate always
lies in `[0.5, 2.0]`, and an out-of-range rate is never rejected: the route
never answers 400 once a text field is present. -/
theorem rate_clamping_spec (cfg : Config) (env : Env) (st : Engine) (fs : FS)
    (text : String) (r : ℚ) :
    synthesizeRoute cfg env st fs ⟨some (some text, some r)⟩ =
      synthesizeRoute cfg env st fs ⟨some (some text, some (clampRate r))⟩ ∧
    synthesizeRoute cfg env st fs ⟨some (some text, some 10.0)⟩ =
      synthesizeRoute cfg env st fs ⟨some (some text, some 2.0)⟩ ∧
    synthesizeRoute cfg env st fs ⟨some (some text, some 0.1)⟩ =
      synthesizeRoute cfg env st fs ⟨some (some text, some 0.5)⟩ ∧
    0.5 ≤ clampRate r ∧ clampRate r ≤ 2.0 ∧
    (synthesizeRoute cfg env st fs ⟨some (some text, some r)⟩).1.statusCode ≠ 400 := by
  refine ⟨?_, ?_, ?_, clampRate_ge r, clampRate_le r, ?_⟩
  · simp only [synthesizeRoute, Option.getD_some, clampRate_idem]
  · have h : clampRate 10.0 = clampRate 2.0 := by
      unfold clampRate; norm_num
    simp only [synthesizeRoute, Option.getD_some, h]
  · have h : clampRate 0.1 = clampRate 0.5 := by
      unfold clampRate; norm_num
    simp only [synthesizeRoute, Option.getD_some, h]
  · simp only [synthesizeRoute, Option.getD_some]
    rcases hs : synthesize cfg env st fs text (clampRate r) with ⟨res, st1, fs1⟩
    cases res <;> simp [RouteResult.statusCode]

/-! ## C8 — `/synthesize` request validation and failure mapping -/

/-- C8. Request validation and failure mapping for `/synthesize`: an absent,
non-JSON or empty body and a body lacking the `text` field are answered with
HTTP 400 and an error-shaped body, with no synthesis attempted (engine state
and filesystem unchanged); when a `text` field is present and the synthesis
call raises, the route answers HTTP 500 with the error message as the body;
when synthesis returns bytes, the route answers them with the `audio/wav`
content type. -/
theorem synthesize_route_contract (cfg : Config) (env : Env) (st : Engine)
    (fs : FS) (text : String) (rf : Option ℚ) :
    synthesizeRoute cfg env st fs ⟨none⟩ = (.jsonErr 400 "Missing text field", st, fs) ∧
    synthesizeRoute cfg env st fs ⟨some (none, rf)⟩ =
      (.jsonErr 400 "Missing text field", st, fs) ∧
    (∀ e st1 fs1, synthesize cfg env st fs text (clampRate (rf.getD 1.0)) =
        (.error e, st1, fs1) →
      synthesizeRoute cfg env st fs ⟨some (some text, rf)⟩ = (.jsonErr 500 e, st1, fs1)) ∧
    (∀ b st1 fs1, synthesize cfg env st fs text (clampRate (rf.getD 1.0)) =
        (.ok b, st1, fs1) →
      synthesizeRoute cfg env st fs ⟨some (some text, rf)⟩ =
        (.audio b "audio/wav", st1, fs1)) := by
  refine ⟨rfl, rfl, ?_, ?_⟩
  · intro e st1 fs1 h
    simp only [synthesizeRoute, h]
  · intro b st1 fs1 h
    simp only [synthesizeRoute, h]

/-- Witness for C8 at concrete inputs: a missing body and an empty JSON
object are answered 400 with the engine untouched; the sample request
`{"text": "hi"}` under an all-successful environment is answered with the
generated WAV bytes and the audio content type; the same request under an
environment whose model load raises is answered 500 with that message. -/
theorem synthesize_route_contract_witness :
    synthesizeRoute cfg0 envA Engine.start fs0 ⟨none⟩ =
      (.jsonErr 400 "Missing text field", Engine.start, fs0) ∧
    synthesizeRoute cfg0 envA Engine.start fs0 ⟨some (none, none)⟩ =
      (.jsonErr 400 "Missing text field", Engine.start, fs0) ∧
    synthesizeRoute cfg0 envFail Engine.start fs0 ⟨some (some "hi", some 1)⟩ =
      (.jsonErr 500 "no qwen_tts", Engine.start, fs0) ∧
    synthesizeRoute cfg0 envA Engine.start fs0 ⟨some (some "hi", some 1)⟩ =
      (.audio b1 "audio/wav", st1c, fs1c) := by
  refine ⟨(synthesize_route_contract cfg0 envA Engine.start fs0 "hi" none).1,
          (synthesize_route_contract cfg0 envA Engine.start fs0 "hi" none).2.1,
          (synthesize_route_contract cfg0 envFail Engine.start fs0 "hi"
            (some 1)).2.2.1 "no qwen_tts" Engine.start fs0 (by rfl),
          (synthesize_route_contract cfg0 envA Engine.start fs0 "hi"
            (some 1)).2.2.2 b1 st1c fs1c ?_⟩
  rw [show clampRate ((some (1:ℚ)).getD 1.0) = 1 from by norm_num [clampRate]]
  rfl

/-! ## Core lemmas about `synthesize` -/

/-- When the lazy-initialization step of `synthesize` reports success, the
resulting engine carries the initialized flag. -/
theorem afterInit_ok_inited (cfg : Config) (env : Env) (st : Engine) (fs : FS)
    (sta : Engine)
    (h : (if st.inited then (Except.ok (), st) else initEngine cfg env st fs) =
      (.ok (), sta)) :
    sta.inited = true := by
  split at h
  next hi =>
    injection h with h1 h2
    subst h2
    exact hi
  next hi =>
    unfold initEngine at h
    rw [if_neg hi] at h
    split at h
    next => simp at h
    next m hm =>
      split at h
      next =>
        injection h with h1 h2
        subst h2
        rfl
      next => simp at h

/-- Postcondition of a successful `synthesize` call: the resulting engine is
initialized and its memory cache answers the request's key with exactly the
returned bytes. -/
theorem synthesize_ok_post (cfg : Config) (env : Env) (st : Engine) (fs : FS)
    (text : String) (rate : ℚ) (b : Bytes) (st1 : Engine) (fs1 : FS)
    (h : synthesize cfg env st fs text rate = (.ok b, st1, fs1)) :
    st1.inited = true ∧
    st1.audioCache.lookup (getCacheKey cfg text rate) = some b := by
  unfold synthesize at h
  split at h
  next e sta heq => simp at h
  next u sta heq =>
    cases u
    have hin : sta.inited = true := afterInit_ok_inited cfg env st fs sta heq
    simp only at h
    split at h
    next bb hL =>
      injection h with h1 h2
      injection h2 with h2a h2b
      injection h1 with h1'
      subst h2a h2b h1'
      exact ⟨hin, hL⟩
    next hL =>
      split at h
      next bb hF =>
        injection h with h1 h2
        injection h2 with h2a h2b
        injection h1 with h1'
        subst h2a h2b h1'
        refine ⟨hin, ?_⟩
        simp [List.lookup]
      next hF =>
        unfold generateAndCache at h
        split at h
        next e hg => simp at h
        next arr sr hg =>
          split at h
          next hw =>
            injection h with h1 h2
            injection h2 with h2a h2b
            injection h1 with h1'
            subst h2a h2b h1'
            refine ⟨hin, ?_⟩
            simp [List.lookup]
          next hw => simp at h

/-- A memory-cache hit returns the cached bytes and touches nothing: the
engine, the filesystem and the answer are independent of the environment. -/
theorem synthesize_mem_hit (cfg : Config) (env : Env) (st : Engine) (fs : FS)
    (text : String) (rate : ℚ) (b : Bytes)
    (hin : st.inited = true)
    (hL : st.audioCache.lookup (getCacheKey cfg text rate) = some b) :
    synthesize cfg env st fs text rate = (.ok b, st, fs) := by
  unfold synthesize
  rw [if_pos hin]
  simp only [hL]

/-! ## C3 — idempotence of synthesis -/

/-- C3. Idempotence: after a first successful `synthesize(text, rate)` call
producing bytes `b` and state `(st1, fs1)`, a second call with the same text
and rate returns exactly `b` and leaves all state unchanged — and it does so
for EVERY environment `env2`, in particular one whose synthesis capability
would produce different bytes: the second call is served from the memory
cache and never consults the capability. -/
theorem synthesize_idempotent (cfg : Config) (env1 env2 : Env) (st : Engine)
    (fs : FS) (text : String) (rate : ℚ) (b : Bytes) (st1 : Engine) (fs1 : FS)
    (h : synthesize cfg env1 st fs text rate = (.ok b, st1, fs1)) :
    synthesize cfg env2 st1 fs1 text rate = (.ok b, st1, fs1) := by
  obtain ⟨hin, hL⟩ := synthesize_ok_post cfg env1 st fs text rate b st1 fs1 h
  exact synthesize_mem_hit cfg env2 st1 fs1 text rate b hin hL

/-- Witness for C3: a first synthesis of `("hi", 1)` from a fresh engine
under `envA` succeeds with the WAV bytes `b1`; the second call, run under
`envB` whose capability would return entirely different samples, still
returns `b1` and the state `(st1c, fs1c)` untouched. -/
theorem synthesize_idempotent_witness :
    synthesize cfg0 envB st1c fs1c "hi" 1 = (.ok b1, st1c, fs1c) :=
  synthesize_idempotent cfg0 envA envB Engine.start fs0 "hi" 1 b1 st1c fs1c (by rfl)

/-! ## C5 — cache get tier order -/

/-- C5. Tier order of the cache lookup inside `synthesize` (on an
initialized engine, so that the lookup logic is isolated from lazy
initialization): a memory hit answers immediately with no state change and
no dependence on the file tier's content for that key; on a memory miss, a
file hit loads the file's bytes, inserts them into the memory mapping, and
returns them; only when both tiers miss does control reach the generation
step `generateAndCache` (which invokes the synthesis capability). -/
theorem cache_get_tier_order (cfg : Config) (env : Env) (st : Engine)
    (fs : FS) (text : String) (rate : ℚ) (b : Bytes)
    (hin : st.inited = true) :
    (st.audioCache.lookup (getCacheKey cfg text rate) = some b →
      synthesize cfg env st fs text rate = (.ok b, st, fs)) ∧
    (st.audioCache.lookup (getCacheKey cfg text rate) = none →
      fs.cacheFiles.lookup (getCacheKey cfg text rate) = some b →
      synthesize cfg env st fs text rate =
        (.ok b,
         { st with audioCache :=
             (getCacheKey cfg text rate, b) :: st.audioCache }, fs)) ∧
    (st.audioCache.lookup (getCacheKey cfg text rate) = none →
      fs.cacheFiles.lookup (getCacheKey cfg text rate) = none →
      synthesize cfg env st fs text rate =
        generateAndCache env st fs text rate (getCacheKey cfg text rate)) := by
  refine ⟨?_, ?_, ?_⟩
  · intro hM
    exact synthesize_mem_hit cfg env st fs text rate b hin hM
  · intro hM hF
    unfold synthesize
    rw [if_pos hin]
    simp only [hM, hF]
  · intro hM hF
    unfold synthesize
    rw [if_pos hin]
    simp only [hM, hF]

/-- Witness for C5, exercising all three tiers at concrete states: a memory
hit on `st1c`, a file hit on an initialized engine with an empty memory
cache over `fs1c`, and a double miss on empty caches reaching the
generation step. -/
theorem cache_get_tier_order_witness :
    synthesize cfg0 envA st1c fs1c "hi" 1 = (.ok b1, st1c, fs1c) ∧
    synthesize cfg0 envA stI fs1c "hi" 1 =
      (.ok b1, { stI with audioCache := [(key0, b1)] }, fs1c) ∧
    synthesize cfg0 envA stI fs0 "hi" 1 =
      generateAndCache envA stI fs0 "hi" 1 key0 := by
  refine ⟨(cache_get_tier_order cfg0 envA st1c fs1c "hi" 1 b1 rfl).1 ?_,
          (cache_get_tier_order cfg0 envA stI fs1c "hi" 1 b1 rfl).2.1 rfl ?_,
          (cache_get_tier_order cfg0 envA stI fs0 "hi" 1 b1 rfl).2.2 rfl rfl⟩
  · show List.lookup key0 [(key0, b1)] = some b1
    simp [List.lookup]
  · show List.lookup key0 [(key0, b1)] = some b1
    simp [List.lookup]

/-! ## C7 — lazy initialization failure semantics -/

/-- C7. Initialization failure semantics. On an uninitialized engine whose
initialization raises `e`: the flag stays unset (the engine remains
uninitialized), the `synthesize` call aborts with exactly that error and no
cache activity, the `/synthesize` route surfaces it as HTTP 500 with the
message in the body, and a next request on the resulting state retries
initialization from scratch — under an environment whose model load now
succeeds, that retry succeeds and sets the flag. Conversely, once the
engine is initialized, `synthesize` skips the initialization step entirely:
its outcome does not depend on the environment's model-load or directory
fields. -/
theorem lazy_init_failure_semantics (cfg : Config) (env envOk : Env)
    (st : Engine) (fs : FS) (text : String) (rate : ℚ) (e : String)
    (m : Model) :
    (st.inited = false → (initEngine cfg env st fs).1 = .error e →
      ((initEngine cfg env st fs).2.inited = false ∧
       synthesize cfg env st fs text rate =
         (.error e, (initEngine cfg env st fs).2, fs) ∧
       synthesizeRoute cfg env st fs ⟨some (some text, some rate)⟩ =
         (.jsonErr 500 e, (initEngine cfg env st fs).2, fs) ∧
       ((∀ d, envOk.loadModel d = .ok m) → envOk.mkdirOk = true →
         ((initEngine cfg envOk (initEngine cfg env st fs).2 fs).1 = .ok () ∧
          (initEngine cfg envOk (initEngine cfg env st fs).2 fs).2.inited = true)))) ∧
    (st.inited = true → ∀ lm mo,
      synthesize cfg { env with loadModel := lm, mkdirOk := mo } st fs text rate =
        synthesize cfg env st fs text rate) := by
  constructor
  · intro hni hErr
    rcases hI : initEngine cfg env st fs with ⟨r, sta⟩
    rw [hI] at hErr
    simp only at hErr
    subst hErr
    have hsta : sta.inited = false := by
      unfold initEngine at hI
      rw [if_neg (by simp [hni])] at hI
      split at hI
      next => injection hI with h1 h2; subst h2; exact hni
      next m' hm =>
        split at hI
        next => simp at hI
        next =>
          injection hI with h1 h2
          subst h2
          exact hni
    have hsyn : synthesize cfg env st fs text rate = (.error e, sta, fs) := by
      unfold synthesize
      rw [if_neg (by simp [hni]), hI]
    refine ⟨hsta, hsyn, ?_, ?_⟩
    · simp only [synthesizeRoute]
      rw [show synthesize cfg env st fs text (clampRate ((some rate).getD 1.0)) =
            (.error e, sta, fs) from by
        unfold synthesize
        rw [if_neg (by simp [hni]), hI]]
    · intro hLM hMK
      show (initEngine cfg envOk sta fs).1 = Except.ok () ∧
        (initEngine cfg envOk sta fs).2.inited = true
      unfold initEngine
      rw [if_neg (by simp [hsta]), hLM, hMK]
      exact ⟨rfl, rfl⟩
  · intro hi lm mo
    unfold synthesize
    rw [if_pos hi, if_pos hi]
    rfl

/-- Witness for C7 at concrete inputs: a fresh engine under a failing model
load is left uninitialized with the error surfaced (HTTP 500), and the next
attempt under the healthy environment initializes; an initialized engine's
synthesis result ignores the model-load and directory fields. -/
theorem lazy_init_failure_semantics_witness :
    ((initEngine cfg0 envFail Engine.start fs0).2.inited = false ∧
     synthesize cfg0 envFail Engine.start fs0 "hi" 1 =
       (.error "no qwen_tts", (initEngine cfg0 envFail Engine.start fs0).2, fs0) ∧
     synthesizeRoute cfg0 envFail Engine.start fs0 ⟨some (some "hi", some 1)⟩ =
       (.jsonErr 500 "no qwen_tts", (initEngine cfg0 envFail Engine.start fs0).2, fs0) ∧
     ((initEngine cfg0 envA (initEngine cfg0 envFail Engine.start fs0).2 fs0).1 = .ok () ∧
      (initEngine cfg0 envA (initEngine cfg0 envFail Engine.start fs0).2 fs0).2.inited = true)) ∧
    synthesize cfg0 { envA with loadModel := fun _ => .error "x", mkdirOk := false }
      st1c fs1c "hi" 1 = synthesize cfg0 envA st1c fs1c "hi" 1 := by
  have h := lazy_init_failure_semantics cfg0 envFail envA Engine.start fs0 "hi" 1
    "no qwen_tts" 0
  have h2 := lazy_init_failure_semantics cfg0 envA envA st1c fs1c "hi" 1 "x" 0
  refine ⟨?_, h2.2 rfl (fun _ => .error "x") false⟩
  obtain ⟨ha, hb, hc, hd⟩ := h.1 rfl (by rfl)
  exact ⟨ha, hb, hc, hd (fun _ => rfl) rfl⟩

/-! ## C6 — profile-loader failure absorption -/

/-- C6. Failure absorption in `_load_voice_prompt`. When the reference audio
file does not exist, the loader returns early without building any profile
and without raising (the embedded function is total: the state is simply
returned), so an engine with no active profile still has none and synthesis
falls back to the default voice. When the file exists but the capability
fails to build a profile, the failure is swallowed and the active profile
ends up absent. The failure also never propagates to the `/reference`
caller: even under an environment whose profile build always raises, the
route answers 200 (merely reporting `voice_clone_active` as false). -/
theorem load_profile_failure_absorption (cfg : Config) (env : Env)
    (st : Engine) (fs : FS) :
    (fs.refExists = false → loadVoicePrompt cfg env st fs = st) ∧
    (fs.refExists = false → st.voicePrompt = none →
      (loadVoicePrompt cfg env st fs).voicePrompt = none) ∧
    (∀ m e, fs.refExists = true → st.model = some m →
      env.buildPrompt m cfg.referenceAudio cfg.referenceText = .error e →
      (loadVoicePrompt cfg env st fs).voicePrompt = none) ∧
    (∀ tf e, (∀ a b c, env.buildPrompt a b c = .error e) →
      ((uploadReference cfg env st fs true tf).1.status = 200 ∧
       (uploadReference cfg env st fs true tf).1.voiceCloneActive = some false)) := by
  refine ⟨?_, ?_, ?_, ?_⟩
  · intro hR
    unfold loadVoicePrompt
    rw [if_neg (by simp [hR])]
  · intro hR hv
    unfold loadVoicePrompt
    rw [if_neg (by simp [hR])]
    exact hv
  · intro m e hR hm hb
    unfold loadVoicePrompt
    rw [if_pos hR, hm]
    simp [hb]
  · intro tf e hb
    unfold uploadReference loadVoicePrompt
    rcases hm : st.model with _ | m <;> simp [hm, hb]

/-- Witness for C6 at concrete inputs: with no reference file a fresh
engine is returned untouched with no profile; with the file present but a
failing build, the profile ends up absent; the `/reference` route still
answers 200 with `voice_clone_active: false` under the failing build. -/
theorem load_profile_failure_absorption_witness :
    loadVoicePrompt cfg0 envA Engine.start fs0 = Engine.start ∧
    (loadVoicePrompt cfg0 envA Engine.start fs0).voicePrompt = none ∧
    (loadVoicePrompt cfg0 envP stI { fs0 with refExists := true }).voicePrompt = none ∧
    ((uploadReference cfg0 envP stI fs0 true none).1.status = 200 ∧
     (uploadReference cfg0 envP stI fs0 true none).1.voiceCloneActive = some false) :=
  ⟨(load_profile_failure_absorption cfg0 envA Engine.start fs0).1 rfl,
   (load_profile_failure_absorption cfg0 envA Engine.start fs0).2.1 rfl rfl,
   (load_profile_failure_absorption cfg0 envP stI
     { fs0 with refExists := true }).2.2.1 0 "bad clip" rfl rfl rfl,
   (load_profile_failure_absorption cfg0 envP stI fs0).2.2.2 none "bad clip"
     (fun _ _ _ => rfl)⟩

/-! ## C2 — the profile loader does not always replace the active profile -/

/-- Counterexample to C2 as stated. The claim says that after every call of
the profile loader the active profile is the newly built one or absent,
never the one active before the call. But when the reference audio file
does not exist, `_load_voice_prompt` returns early without touching
`self.voice_prompt`: starting from an engine whose active profile is the
old `some 9` and a filesystem with no reference file, the call returns with
the pre-call profile `some 9` still active (and `envA` would have built the
distinct profile `7` had a build been attempted). -/
theorem load_profile_replaces_counterexample :
    ({ stI with voicePrompt := some 9 } : Engine).voicePrompt = some 9 ∧
    fs0.refExists = false ∧
    (loadVoicePrompt cfg0 envA { stI with voicePrompt := some 9 } fs0).voicePrompt =
      some 9 := by
  exact ⟨rfl, rfl, rfl⟩

/-- C2 amended: when the reference audio file exists, the call replaces the
active profile — afterwards it is the newly built one (the build outcome's
value) or absent, never the previous one; when the file does not exist the
loader returns early and the previously active profile is retained
unchanged. -/
theorem load_profile_replaces_when_file_exists (cfg : Config) (env : Env)
    (st : Engine) (fs : FS) (m : Model) :
    (fs.refExists = true → st.model = some m →
      (loadVoicePrompt cfg env st fs).voicePrompt =
        (env.buildPrompt m cfg.referenceAudio cfg.referenceText).toOption) ∧
    (fs.refExists = true → st.model = none →
      (loadVoicePrompt cfg env st fs).voicePrompt = none) ∧
    (fs.refExists = false → loadVoicePrompt cfg env st fs = st) := by
  refine ⟨?_, ?_, ?_⟩
  · intro hR hm
    unfold loadVoicePrompt
    rw [if_pos hR, hm]
    rcases hb : env.buildPrompt m cfg.referenceAudio cfg.referenceText with e | p
    · simp [hb, Except.toOption]
    · simp [hb, Except.toOption]
  · intro hR hm
    unfold loadVoicePrompt
    rw [if_pos hR, hm]
  · intro hR
    unfold loadVoicePrompt
    rw [if_neg (by simp [hR])]

/-- Witness for the amended C2 at concrete inputs: with the reference file
present, a successful build installs the new profile `7` and a failing
build leaves the profile absent; with the file absent the engine (carrying
old profile `9`) is returned unchanged. -/
theorem load_profile_replaces_when_file_exists_witness :
    (loadVoicePrompt cfg0 envA stI { fs0 with refExists := true }).voicePrompt =
      (Except.ok 7 : Except String VoiceProfile).toOption ∧
    (loadVoicePrompt cfg0 envA Engine.start { fs0 with refExists := true }).voicePrompt = none ∧
    loadVoicePrompt cfg0 envA { stI with voicePrompt := some 9 } fs0 =
      { stI with voicePrompt := some 9 } :=
  ⟨(load_profile_replaces_when_file_exists cfg0 envA stI
      { fs0 with refExists := true } 0).1 rfl rfl,
   (load_profile_replaces_when_file_exists cfg0 envA Engine.start
      { fs0 with refExists := true } 0).2.1 rfl rfl,
   (load_profile_replaces_when_file_exists cfg0 envA
      { stI with voicePrompt := some 9 } fs0 0).2.2 rfl⟩

/-! ## C1 — cache put is not atomic: the memory entry precedes the write -/

/-- Counterexample to C1 as stated. The claim says that when writing the
cache file fails, nothing is cached for the key — in particular the
in-memory entry is absent afterwards. But `TTSEngine.synthesize` executes
`self.audio_cache[cache_key] = audio_data` BEFORE `open(cache_path, "wb")`:
at a concrete miss whose file write fails, the call does fail, yet the
in-memory entry for the key is present while no cache file for it exists,
so the two tiers are left inconsistent. -/
theorem cache_put_atomicity_counterexample :
    (synthesize cfg0 envW stI fs0 "hi" 1).1 = .error "file write failed" ∧
    ((synthesize cfg0 envW stI fs0 "hi" 1).2.1.audioCache.lookup key0 = some b1 ∧
     (synthesize cfg0 envW stI fs0 "hi" 1).2.2.cacheFiles.lookup key0 = none) := by
  refine ⟨rfl, ?_, ?_⟩
  · have h : (synthesize cfg0 envW stI fs0 "hi" 1).2.1.audioCache = [(key0, b1)] := rfl
    rw [h]
    simp [List.lookup]
  · have h : (synthesize cfg0 envW stI fs0 "hi" 1).2.2.cacheFiles = ([] : List (String × Bytes)) := rfl
    rw [h]
    rfl

/-- C1 amended: on a cache miss whose generation succeeds but whose cache
file write fails, the `synthesize` operation does fail (the exception
propagates to the caller) and the file tier is unchanged, but the in-memory
entry for the key — inserted immediately before the write — remains, so
the memory tier can hold an entry whose file counterpart does not exist. -/
theorem cache_put_failure_keeps_memory_entry (cfg : Config) (env : Env)
    (st : Engine) (fs : FS) (text : String) (rate : ℚ) (m : Model)
    (arr : List ℚ) (sr : Nat)
    (hin : st.inited = true)
    (hM : st.audioCache.lookup (getCacheKey cfg text rate) = none)
    (hF : fs.cacheFiles.lookup (getCacheKey cfg text rate) = none)
    (hvp : st.voicePrompt = none) (hm : st.model = some m)
    (hg : env.gen m text rate = .ok (arr, sr))
    (hw : env.writeOk = false) :
    synthesize cfg env st fs text rate =
      (.error "file write failed",
       { st with audioCache :=
           (getCacheKey cfg text rate, arrayToWav arr sr) :: st.audioCache },
       fs) := by
  unfold synthesize
  rw [if_pos hin]
  simp only [hM, hF]
  unfold generateAndCache genCall
  rw [hvp, hm]
  simp [hg, hw]

/-- Witness for the amended C1 at the counterexample's concrete input. -/
theorem cache_put_failure_keeps_memory_entry_witness :
    synthesize cfg0 envW stI fs0 "hi" 1 =
      (.error "file write failed", { stI with audioCache := [(key0, b1)] }, fs0) :=
  cache_put_failure_keeps_memory_entry cfg0 envW stI fs0 "hi" 1 0 [] 8000
    rfl rfl rfl rfl rfl rfl rfl

/-! ## C10 — a voice profile exists only when a model handle exists -/

/-- Invariant of the engine: an active voice profile implies a loaded model
handle. -/
def modelInv (st : Engine) : Prop := st.voicePrompt.isSome → st.model.isSome

/-- The profile loader preserves the invariant. -/
theorem loadVoicePrompt_modelInv (cfg : Config) (env : Env) (st : Engine)
    (fs : FS) (hI : modelInv st) : modelInv (loadVoicePrompt cfg env st fs) := by
  unfold loadVoicePrompt
  split
  · rcases hm : st.model with _ | mm
    · simp [modelInv, hm]
    · rcases hb : env.buildPrompt mm cfg.referenceAudio cfg.referenceText with e | p
      · simp [modelInv, hm, hb]
      · simp [modelInv, hm, hb]
  · exact hI

/-- Lazy initialization preserves the invariant (in both outcomes). -/
theorem initEngine_modelInv (cfg : Config) (env : Env) (st : Engine) (fs : FS)
    (hI : modelInv st) : modelInv (initEngine cfg env st fs).2 := by
  unfold initEngine
  split
  · exact hI
  · split
    next => exact hI
    next m hm =>
      split
      · have h2 := loadVoicePrompt_modelInv cfg env
          { st with model := some m } fs (by simp [modelInv])
        simpa [modelInv] using h2
      · simp [modelInv]

/-- The orchestrator preserves the invariant (in all outcomes). -/
theorem synthesize_modelInv (cfg : Config) (env : Env) (st : Engine) (fs : FS)
    (text : String) (rate : ℚ) (hI : modelInv st) :
    modelInv (synthesize cfg env st fs text rate).2.1 := by
  have hA : modelInv (if st.inited then (Except.ok (), st)
      else initEngine cfg env st fs).2 := by
    split
    · exact hI
    · exact initEngine_modelInv cfg env st fs hI
  unfold synthesize
  rcases hE : (if st.inited then (Except.ok (), st) else initEngine cfg env st fs)
    with ⟨r, sta⟩
  rw [hE] at hA
  cases r
  · exact hA
  · simp only
    split
    · exact hA
    · split
      · simpa [modelInv] using hA
      · unfold generateAndCache
        split
        · exact hA
        · split
          · simpa [modelInv] using hA
          · simpa [modelInv] using hA

/-- The `/reference` route preserves the invariant. -/
theorem uploadReference_modelInv (cfg : Config) (env : Env) (st : Engine)
    (fs : FS) (hasAudio : Bool) (tf : Option String) (hI : modelInv st) :
    modelInv (uploadReference cfg env st fs hasAudio tf).2.2.1 := by
  unfold uploadReference
  split
  · exact loadVoicePrompt_modelInv _ env st _ hI
  · exact hI

/-- C10. The implicit invariant that the engine's voice profile is
non-absent only when the model handle is non-absent is preserved by every
operation (profile load, lazy initialization, synthesis, reference upload);
and a `/reference` upload performed before the engine has ever initialized
(model handle absent) saves the reference file, yet always ends with no
active profile — the build against the absent model raises and is
swallowed — so the response reports `voice_clone_active` as false with
status 200. -/
theorem voice_profile_requires_model (cfg : Config) (env : Env) (st : Engine)
    (fs : FS) (text : String) (rate : ℚ) (hasAudio : Bool) (tf : Option String)
    (hI : modelInv st) (hm : st.model = none) :
    modelInv (loadVoicePrompt cfg env st fs) ∧
    modelInv (initEngine cfg env st fs).2 ∧
    modelInv (synthesize cfg env st fs text rate).2.1 ∧
    modelInv (uploadReference cfg env st fs hasAudio tf).2.2.1 ∧
    ((uploadReference cfg env st fs true tf).2.2.2.refExists = true ∧
     (uploadReference cfg env st fs true tf).2.2.1.voicePrompt = none ∧
     (uploadReference cfg env st fs true tf).1 = ⟨200, some false⟩) := by
  refine ⟨loadVoicePrompt_modelInv cfg env st fs hI,
          initEngine_modelInv cfg env st fs hI,
          synthesize_modelInv cfg env st fs text rate hI,
          uploadReference_modelInv cfg env st fs hasAudio tf hI, ?_, ?_, ?_⟩
  · unfold uploadReference
    simp
  · unfold uploadReference loadVoicePrompt
    simp [hm]
  · unfold uploadReference loadVoicePrompt
    simp [hm]

/-- Witness for C10 at concrete inputs: the invariant holds across all four
operations started from a fresh engine, and a `/reference` upload on the
never-initialized engine leaves the file saved, the profile absent, and the
response reporting `voice_clone_active: false`. -/
theorem voice_profile_requires_model_witness :
    modelInv (loadVoicePrompt cfg0 envA Engine.start fs0) ∧
    modelInv (initEngine cfg0 envA Engine.start fs0).2 ∧
    modelInv (synthesize cfg0 envA Engine.start fs0 "hi" 1).2.1 ∧
    modelInv (uploadReference cfg0 envA Engine.start fs0 true none).2.2.1 ∧
    ((uploadReference cfg0 envA Engine.start fs0 true none).2.2.2.refExists = true ∧
     (uploadReference cfg0 envA Engine.start fs0 true none).2.2.1.voicePrompt = none ∧
     (uploadReference cfg0 envA Engine.start fs0 true none).1 = ⟨200, some false⟩) :=
  voice_profile_requires_model cfg0 envA Engine.start fs0 "hi" 1 true none
    (fun h => h) rfl

/-- Witness for C9 at a concrete out-of-range request: instantiation of the
clamping statement at `rate = 10` on an initialized engine. -/
theorem rate_clamping_spec_witness :
    synthesizeRoute cfg0 envA stI fs1c ⟨some (some "hi", some 10)⟩ =
      synthesizeRoute cfg0 envA stI fs1c ⟨some (some "hi", some (clampRate 10))⟩ ∧
    synthesizeRoute cfg0 envA stI fs1c ⟨some (some "hi", some 10.0)⟩ =
      synthesizeRoute cfg0 envA stI fs1c ⟨some (some "hi", some 2.0)⟩ ∧
    synthesizeRoute cfg0 envA stI fs1c ⟨some (some "hi", some 0.1)⟩ =
      synthesizeRoute cfg0 envA stI fs1c ⟨some (some "hi", some 0.5)⟩ ∧
    0.5 ≤ clampRate 10 ∧ clampRate 10 ≤ 2.0 ∧
    (synthesizeRoute cfg0 envA stI fs1c ⟨some (some "hi", some 10)⟩).1.statusCode ≠ 400 :=
  rate_clamping_spec cfg0 envA stI fs1c "hi" 10
